import Mathlib

/-!
Verification of the aggregation-and-projection core of
`src/imitation/scripts/analyze.py`.

The script consumes Sacred run directories, each holding two JSON documents
(`run.json` and `config.json`), filters them, derives summary columns and
builds a sorted table.  JSON documents are embedded as a closed inductive
value type; JSON numbers are modelled as exact rationals.  Python operations
that can raise (`dict[key]` indexing, `str.upper` on a non-string, division
by zero, a failed assertion) are embedded in `Except String`.
-/

namespace Imitation

/-- A JSON value, as parsed from `run.json` / `config.json`.
Numbers are modelled as exact rationals (JSON text is decimal). -/
inductive JVal where
  | null : JVal
  | bool : Bool → JVal
  | num : ℚ → JVal
  | str : String → JVal
  | obj : List (String × JVal) → JVal
  | arr : List JVal → JVal

/-- A parsed JSON object, i.e. a Python `dict` (keys are unique;
lookup takes the first binding). -/
abbrev JDict := List (String × JVal)

/-- First binding of key `k` in an object, i.e. Python `k in d` / `d[k]`. -/
def lookupField : JDict → String → Option JVal
  | [], _ => none
  | (k, v) :: rest, key => if k == key then some v else lookupField rest key

/-- Resolution of a dotted path, key by key; any missing key or non-object
intermediate yields `none` (the helper's default). -/
def resolvePath : JVal → List String → Option JVal
  | v, [] => some v
  | JVal.obj fields, k :: rest =>
    match lookupField fields k with
    | some v => resolvePath v rest
    | none => none
  | _, _ :: _ => none

/-- Split a character list at the dots, accumulating the current segment in
reverse. -/
def splitDotsAux : List Char → List Char → List String
  | [], acc => [String.mk acc.reverse]
  | c :: rest, acc =>
    if c = '.' then String.mk acc.reverse :: splitDotsAux rest []
    else splitDotsAux rest (c :: acc)

/-- Split a dotted key into its segments (`"a.b"` to `["a", "b"]`). -/
def splitDots (s : String) : List String := splitDotsAux s.toList []

/-- Modelled from the spec: the `dict_get_nested` helper (imported as `get`)
lives in `imitation.util.sacred`, outside the shown source.  Per the spec's
FieldExtractor contract it walks the dotted key path and returns the default
(`None`) as soon as a key is absent, never raising.  A present JSON `null` is
Python `None` and hence indistinguishable from an absent key for every caller
(`is not None` tests, `==`/`!=` comparisons, `str`), so both are collapsed to
`none`. -/
def dict_get_nested (d : JDict) (nested_key : String) : Option JVal :=
  match resolvePath (JVal.obj d) (splitDots nested_key) with
  | some JVal.null => none
  | r => r

/-- Python `d.get(k)`: the value under `k`, or `None` when the key is absent.
A stored JSON `null` is Python `None`, collapsed to `none` as in
`dict_get_nested`. -/
def pyDictGet (d : JDict) (k : String) : Option JVal :=
  match lookupField d k with
  | some JVal.null => none
  | r => r

/-- A single-quote character, built numerically so the source file carries no
quote literal. -/
def sq : String := String.singleton (Char.ofNat 39)

/-- Decimal rendering of a rational: integers render like Python ints;
non-integers render as `num/den` (never reached by the analysis script,
whose stringified numbers are JSON integers). -/
def ratStr (q : ℚ) : String :=
  if q.den = 1 then toString q.num else toString q.num ++ "/" ++ toString q.den

mutual

/-- Python `str()` of a JSON value: `None`, `True`/`False`, numbers,
the raw string for `str`, and `repr`-style rendering for containers
(single-quoted keys/strings, insertion order; escape sequences inside
strings are not modelled — no claim exercises them). -/
def pyStrV : JVal → String
  | JVal.null => "None"
  | JVal.bool b => if b then "True" else "False"
  | JVal.num q => ratStr q
  | JVal.str s => s
  | JVal.obj fs => "\x7b" ++ pyStrFields fs ++ "\x7d"
  | JVal.arr xs => "[" ++ pyStrElems xs ++ "]"

/-- `repr`-style rendering of a JSON value nested inside a container. -/
def pyReprV : JVal → String
  | JVal.null => "None"
  | JVal.bool b => if b then "True" else "False"
  | JVal.num q => ratStr q
  | JVal.str s => sq ++ s ++ sq
  | JVal.obj fs => "\x7b" ++ pyStrFields fs ++ "\x7d"
  | JVal.arr xs => "[" ++ pyStrElems xs ++ "]"

/-- Comma-separated `repr` rendering of object fields. -/
def pyStrFields : List (String × JVal) → String
  | [] => ""
  | [(k, v)] => sq ++ k ++ sq ++ ": " ++ pyReprV v
  | (k, v) :: rest => sq ++ k ++ sq ++ ": " ++ pyReprV v ++ ", " ++ pyStrFields rest

/-- Comma-separated `repr` rendering of array elements. -/
def pyStrElems : List JVal → String
  | [] => ""
  | [v] => pyReprV v
  | v :: rest => pyReprV v ++ ", " ++ pyStrElems rest

end

/-- Python `str()` of an optional JSON value; `none` is Python `None`. -/
def pyStrOpt : Option JVal → String
  | none => "None"
  | some v => pyStrV v

/-- In-memory form of one Sacred run directory: the directory path plus the
parsed `run.json` and `config.json` documents (`sacred_util.SacredDicts`). -/
structure SacredDicts where
  sacred_dir : String
  run : JDict
  config : JDict

/-! ### Python `format(x, "3g")` for exact decimal numbers

The summary formatter interpolates numbers through the format spec `3g`:
minimum field width 3, presentation type `g` with its default precision 6.
CPython rounds the value to 6 significant decimal digits (ties to even),
uses fixed notation when the decimal exponent `e` satisfies `-4 ≤ e < 6`
and scientific notation otherwise, strips trailing fractional zeros, and
left-pads with spaces to width 3.  The model below reproduces this for
exact rationals; the fuel `400` bounds the exponent search far beyond the
magnitude range of IEEE doubles, so it is never exhausted on a value a
Python float can hold. -/

/-- Round a rational to the nearest integer, ties to even. -/
def roundHalfEven (q : ℚ) : ℤ :=
  let fl := ⌊q⌋
  let fr := q - (fl : ℚ)
  if fr < 1 / 2 then fl
  else if 1 / 2 < fr then fl + 1
  else if fl % 2 = 0 then fl else fl + 1

/-- Decimal exponent search, downward: divide by 10 while `q ≥ 10`. -/
def expUp : Nat → ℚ → ℤ → ℤ
  | 0, _, e => e
  | fuel + 1, q, e => if 10 ≤ q then expUp fuel (q / 10) (e + 1) else e

/-- Decimal exponent search, upward: multiply by 10 while `q < 1`. -/
def expDown : Nat → ℚ → ℤ → ℤ
  | 0, _, e => e
  | fuel + 1, q, e => if q < 1 then expDown fuel (q * 10) (e - 1) else e

/-- The decimal exponent of a positive rational: the unique `e` with
`10 ^ e ≤ q < 10 ^ (e + 1)`. -/
def exp10 (q : ℚ) : ℤ := if 1 ≤ q then expUp 400 q 0 else expDown 400 q 0

/-- Drop trailing `0` characters. -/
def stripZeros (s : String) : String :=
  String.mk ((s.toList.reverse.dropWhile (· == '0')).reverse)

/-- `n` zero characters. -/
def zeroPad (n : Nat) : String := String.mk (List.replicate n '0')

/-- The first `n` characters. -/
def strTake (s : String) (n : Nat) : String := String.mk (s.toList.take n)

/-- All but the first `n` characters. -/
def strDrop (s : String) (n : Nat) : String := String.mk (s.toList.drop n)

/-- Fixed-notation rendering of the `p` significant digits `digits` with
decimal exponent `e` (requires `-4 ≤ e < p`): place the point after
`e + 1` digits, or prefix `0.` and `-e-1` zeros for negative `e`; strip
trailing fractional zeros. -/
def fixedNotation (digits : String) (e : ℤ) : String :=
  if 0 ≤ e then
    let intLen := (e + 1).toNat
    let intPart := strTake digits intLen
    let fracPart := stripZeros (strDrop digits intLen)
    if fracPart = "" then intPart else intPart ++ "." ++ fracPart
  else
    let frac := stripZeros (zeroPad (-e - 1).toNat ++ digits)
    "0." ++ frac

/-- Scientific-notation rendering (`g` style): first digit, stripped
fraction, `e`, sign, at least two exponent digits. -/
def sciNotation (digits : String) (e : ℤ) : String :=
  let frac := stripZeros (strDrop digits 1)
  let mant := if frac = "" then strTake digits 1 else strTake digits 1 ++ "." ++ frac
  let eAbs := e.natAbs
  let eDigits := if eAbs < 10 then "0" ++ toString eAbs else toString eAbs
  mant ++ "e" ++ (if e < 0 then "-" else "+") ++ eDigits

/-- `g`-format a positive rational at precision `p` significant digits. -/
def formatGPos (q : ℚ) (p : Nat) : String :=
  let e := exp10 q
  let scaled := q * (10 : ℚ) ^ (((p : ℤ) - 1) - e)
  let m := roundHalfEven scaled
  let bump := m = 10 ^ p
  let m := if bump then (10 : ℤ) ^ (p - 1) else m
  let e := if bump then e + 1 else e
  let digits := toString m.toNat
  if -4 ≤ e ∧ e < (p : ℤ) then fixedNotation digits e else sciNotation digits e

/-- Left-pad with spaces to width `w`. -/
def padLeft (s : String) (w : Nat) : String :=
  if s.toList.length < w then String.mk (List.replicate (w - s.toList.length) ' ') ++ s else s

/-- Python `format(x, "3g")`: default precision 6, minimum width 3. -/
def formatG3 (q : ℚ) : String :=
  padLeft (if q = 0 then "0" else if q < 0 then "-" ++ formatGPos (-q) 6 else formatGPos q 6) 3

/-! ### SummaryComputer -/

/-- Python `stats[key]` subscripting: `KeyError` on a missing key,
`TypeError` when the receiver is not a dict. -/
def jIndex (v : JVal) (k : String) : Except String JVal :=
  match v with
  | JVal.obj fs =>
    match lookupField fs k with
    | some x => Except.ok x
    | none => Except.error ("KeyError: " ++ k)
  | _ => Except.error "TypeError: value is not subscriptable"

/-- A JSON value as a Python number, as accepted by numeric formatting and
division: numbers are themselves, booleans are the ints 1/0, anything else
raises. -/
def asNum : JVal → Except String ℚ
  | JVal.num q => Except.ok q
  | JVal.bool b => Except.ok (if b then 1 else 0)
  | _ => Except.error "TypeError: not a number"

/-- `_make_return_summary(stats, prefix)`: interpolates
`stats[prefix + "return_mean"]`, `stats[prefix + "return_std"]` and
`stats["n_traj"]` through the format string with specs `3g`, `3g` and the
default (Python `str`). -/
def _make_return_summary (stats : JVal) (pre : String := "") : Except String String :=
  match jIndex stats (pre ++ "return_mean") with
  | Except.error e => Except.error e
  | Except.ok m =>
    match jIndex stats (pre ++ "return_std") with
    | Except.error e => Except.error e
    | Except.ok s =>
      match jIndex stats "n_traj" with
      | Except.error e => Except.error e
      | Except.ok n =>
        match asNum m, asNum s with
        | Except.ok qm, Except.ok qs =>
          Except.ok (formatG3 qm ++ " ± " ++ formatG3 qs ++ " (n=" ++ pyStrV n ++ ")")
        | Except.error e, _ => Except.error e
        | _, Except.error e => Except.error e

/-- `_get_exp_command(sd)`: `str(sd.run.get("command"))`. -/
def _get_exp_command (sd : SacredDicts) : String :=
  pyStrOpt (pyDictGet sd.run "command")

/-- `_get_algo_name(sd)`: dispatch on the stringified command.  The
`train_adversarial` branch upper-cases the config's `algorithm` field when
it is present (raising `AttributeError` if that field is not a string, as
`algo.upper()` would), and returns `None` when it is absent. -/
def _get_algo_name (sd : SacredDicts) : Except String (Option String) :=
  let exp_command := _get_exp_command sd
  if exp_command = "train_adversarial" then
    match dict_get_nested sd.config "algorithm" with
    | none => Except.ok none
    | some (JVal.str s) => Except.ok (some s.toUpper)
    | some _ => Except.error "AttributeError: upper"
  else if exp_command = "train_bc" then Except.ok (some "BC")
  else if exp_command = "train_dagger" then Except.ok (some "DAgger")
  else Except.ok (some ("??exp_command=" ++ exp_command))

/-- The dictionary returned by `_return_summaries`. -/
structure Summaries where
  expert_stats : Option JVal
  imit_stats : Option JVal
  expert_return_summary : Option String
  imit_return_summary : Option String
  imit_expert_ratio : Option ℚ

/-- The `expert_return_summary` / `imit_return_summary` computation: `None`
when the stats sub-document is absent, otherwise `_make_return_summary`. -/
def optSummary : Option JVal → String → Except String (Option String)
  | none, _ => Except.ok none
  | some st, pre => (_make_return_summary st pre).map some

/-- The `imit_expert_ratio` computation:
`imit_stats["monitor_return_mean"] / expert_stats["return_mean"]` when both
sub-documents are present (`ZeroDivisionError` on a zero expert mean, as in
Python), `None` otherwise. -/
def ratioPart : Option JVal → Option JVal → Except String (Option ℚ)
  | some i, some e =>
    match jIndex i "monitor_return_mean", jIndex e "return_mean" with
    | Except.ok vm, Except.ok ve =>
      match asNum vm, asNum ve with
      | Except.ok qm, Except.ok qe =>
        if qe = 0 then Except.error "ZeroDivisionError"
        else Except.ok (some (qm / qe))
      | Except.error er, _ => Except.error er
      | _, Except.error er => Except.error er
    | Except.error er, _ => Except.error er
    | _, Except.error er => Except.error er
  | _, _ => Except.ok none

/-- `_return_summaries(sd)`: reads `result.imit_stats` and
`result.expert_stats` from the run document and assembles both summary
strings and the ratio.  Errors propagate in the source's evaluation order:
expert summary first, then imitation summary, then the ratio. -/
def _return_summaries (sd : SacredDicts) : Except String Summaries :=
  let imit_stats := dict_get_nested sd.run "result.imit_stats"
  let expert_stats := dict_get_nested sd.run "result.expert_stats"
  match optSummary expert_stats "", optSummary imit_stats "monitor_",
      ratioPart imit_stats expert_stats with
  | Except.ok ers, Except.ok irs, Except.ok r =>
    Except.ok ⟨expert_stats, imit_stats, ers, irs, r⟩
  | Except.error e, _, _ => Except.error e
  | _, Except.error e, _ => Except.error e
  | _, _, Except.error e => Except.error e

/-! ### ColumnRegistry -/

/-- A table cell: the Python value a column function produces — `None`, a
string, a number, or a raw JSON container pulled straight out of a
document. -/
inductive Cell where
  | pynone : Cell
  | pystr : String → Cell
  | pynum : ℚ → Cell
  | pyjson : JVal → Cell

/-- The cell for an optional JSON value as returned by the `get` helper. -/
def cellOfOpt : Option JVal → Cell
  | none => Cell.pynone
  | some (JVal.str s) => Cell.pystr s
  | some (JVal.num q) => Cell.pynum q
  | some v => Cell.pyjson v

/-- The cell for an optional string. -/
def cellOfOptStr : Option String → Cell
  | none => Cell.pynone
  | some s => Cell.pystr s

/-- The cell for an optional number. -/
def cellOfOptNum : Option ℚ → Cell
  | none => Cell.pynone
  | some q => Cell.pynum q

/-- The type of a table-entry function (`sd_to_table_entry_type` values):
row cell from the row's `SacredDicts`, in `Except` because several entry
functions index into substructures that are only assumed well-formed. -/
abbrev EntryFn := SacredDicts → Except String Cell

/-- The `status` column. -/
def entryStatus : EntryFn := fun sd =>
  Except.ok (cellOfOpt (dict_get_nested sd.run "status"))

/-- The `exp_command` column. -/
def entryExpCommand : EntryFn := fun sd =>
  Except.ok (Cell.pystr (_get_exp_command sd))

/-- The `algo` column. -/
def entryAlgo : EntryFn := fun sd => (_get_algo_name sd).map cellOfOptStr

/-- The `env_name` column. -/
def entryEnvName : EntryFn := fun sd =>
  Except.ok (cellOfOpt (dict_get_nested sd.config "env_name"))

/-- The `n_expert_demos` column. -/
def entryNExpertDemos : EntryFn := fun sd =>
  Except.ok (cellOfOpt (dict_get_nested sd.config "n_expert_demos"))

/-- The `run_name` column. -/
def entryRunName : EntryFn := fun sd =>
  Except.ok (cellOfOpt (dict_get_nested sd.run "experiment.name"))

/-- The `expert_return_summary` column. -/
def entryExpertReturnSummary : EntryFn := fun sd =>
  (_return_summaries sd).map fun r => cellOfOptStr r.expert_return_summary

/-- The `imit_return_summary` column. -/
def entryImitReturnSummary : EntryFn := fun sd =>
  (_return_summaries sd).map fun r => cellOfOptStr r.imit_return_summary

/-- The `imit_expert_ratio` column. -/
def entryImitExpertRatio : EntryFn := fun sd =>
  (_return_summaries sd).map fun r => cellOfOptNum r.imit_expert_ratio

/-- The `table_entry_fns` OrderedDict: column names to entry functions, in
canonical display order. -/
def table_entry_fns : List (String × EntryFn) :=
  [("status", entryStatus),
   ("exp_command", entryExpCommand),
   ("algo", entryAlgo),
   ("env_name", entryEnvName),
   ("n_expert_demos", entryNExpertDemos),
   ("run_name", entryRunName),
   ("expert_return_summary", entryExpertReturnSummary),
   ("imit_return_summary", entryImitReturnSummary),
   ("imit_expert_ratio", entryImitExpertRatio)]

/-- The verbosity-0 column set. -/
def verbosity0 : List String :=
  ["algo", "env_name", "expert_return_summary", "imit_return_summary"]

/-- The verbosity-1 column set: verbosity 0 plus `n_expert_demos`. -/
def verbosity1 : List String := verbosity0 ++ ["n_expert_demos"]

/-- The verbosity-2 column set: verbosity 1 plus four more columns. -/
def verbosity2 : List String :=
  verbosity1 ++ ["status", "imit_expert_ratio", "exp_command", "run_name"]

/-- `table_verbosity_mapping`: the tier table, one column-name set per
verbosity level (Python sets, modelled as lists read up to membership). -/
def table_verbosity_mapping : List (List String) :=
  [verbosity0, verbosity1, verbosity2]

/-- `_get_table_entry_fns_subset(table_verbosity)`: the failed assertion on
a negative argument is an `AssertionError`; a verbosity at or beyond the
tier table returns the whole registry; otherwise the registry is filtered
to the tier's names, preserving registry order. -/
def _get_table_entry_fns_subset (table_verbosity : ℤ) :
    Except String (List (String × EntryFn)) :=
  if table_verbosity < 0 then Except.error "AssertionError"
  else if (table_verbosity_mapping.length : ℤ) ≤ table_verbosity then
    Except.ok table_entry_fns
  else
    Except.ok (table_entry_fns.filter fun kv =>
      (table_verbosity_mapping.getD table_verbosity.toNat []).contains kv.1)

/-! ### RunRecordLoader and RunFilter (`_gather_sacred_dicts`) -/

/-- Modelled from the spec: `sacred_util.SacredDicts.load_from_dir` and
`sacred_util.filter_subdirs` live in `imitation.util.sacred`, outside the
shown source.  Each discovered candidate directory is represented by its
parse outcome: either a parsed `SacredDicts` or a `json.JSONDecodeError`
carrying the directory path. -/
inductive LoadResult where
  | parsed : SacredDicts → LoadResult
  | jsonDecodeError : String → LoadResult

/-- The loader loop of `_gather_sacred_dicts`: append each successfully
parsed record; on `json.JSONDecodeError` emit the warning text and move to
the next directory. -/
def loadSacredDirs : List LoadResult → List SacredDicts × List String
  | [] => ([], [])
  | LoadResult.parsed sd :: rest =>
    let (sds, ws) := loadSacredDirs rest
    (sd :: sds, ws)
  | LoadResult.jsonDecodeError dir :: rest =>
    let (sds, ws) := loadSacredDirs rest
    (sds, ("Invalid JSON file in " ++ dir) :: ws)

/-- Python `value == s` for a string literal `s`: true exactly when the
value is that string (a number, container, boolean or `None` never equals a
`str`). -/
def eqToStr (v : Option JVal) (s : String) : Bool :=
  match v with
  | some (JVal.str t) => t == s
  | _ => false

/-- The filtering tail of `_gather_sacred_dicts`: the three optional
predicates applied in source order — run name, environment name, then the
FAILED-status filter.  `none` for an optional argument is Python `None`,
disabling that axis. -/
def filterSacredDicts (run_name env_name : Option String)
    (skip_failed_runs : Bool) (sds : List SacredDicts) : List SacredDicts :=
  let s1 := match run_name with
    | none => sds
    | some n => sds.filter fun sd => eqToStr (dict_get_nested sd.run "experiment.name") n
  let s2 := match env_name with
    | none => s1
    | some n => s1.filter fun sd => eqToStr (dict_get_nested sd.config "env_name") n
  if skip_failed_runs then
    s2.filter fun sd => !eqToStr (dict_get_nested sd.run "status") "FAILED"
  else s2

/-- `_gather_sacred_dicts`: load every candidate directory, then filter;
also returns the warnings the loader emitted. -/
def _gather_sacred_dicts (dirs : List LoadResult) (run_name env_name : Option String)
    (skip_failed_runs : Bool) : List SacredDicts × List String :=
  let (sds, ws) := loadSacredDirs dirs
  (filterSacredDicts run_name env_name skip_failed_runs sds, ws)

/-! ### TableBuilder (`analyze_imitation`) -/

/-- A report row: column name to cell, in selected-column order. -/
abbrev Row := List (String × Cell)

/-- Build one row by applying every selected entry function to the record;
a raising entry function aborts the build, as in Python. -/
def buildRow : List (String × EntryFn) → SacredDicts → Except String Row
  | [], _ => Except.ok []
  | (name, f) :: rest, sd =>
    match f sd with
    | Except.error e => Except.error e
    | Except.ok c =>
      match buildRow rest sd with
      | Except.error e => Except.error e
      | Except.ok r => Except.ok ((name, c) :: r)

/-- Build all rows, in record order. -/
def buildRows (fns : List (String × EntryFn)) : List SacredDicts → Except String (List Row)
  | [] => Except.ok []
  | sd :: rest =>
    match buildRow fns sd with
    | Except.error e => Except.error e
    | Except.ok row =>
      match buildRows fns rest with
      | Except.error e => Except.error e
      | Except.ok rows => Except.ok (row :: rows)

/-- The sort key of one cell, embedding pandas' ascending order on the
report's object columns into a lexicographic triple: strings first (ordered
among themselves), then numbers, then raw containers (by rendering), with
missing values (`None`/NaN) last, as `sort_values` places them. -/
def cellKey : Cell → Lex (Nat × Lex (String × ℚ))
  | Cell.pystr s => toLex (0, toLex (s, 0))
  | Cell.pynum q => toLex (1, toLex ("", q))
  | Cell.pyjson v => toLex (2, toLex (pyStrV v, 0))
  | Cell.pynone => toLex (3, toLex ("", 0))

/-- The sort key of an optional cell: an absent column sorts after
everything. -/
def optCellKey : Option Cell → Lex (Nat × Lex (String × ℚ))
  | some c => cellKey c
  | none => toLex (4, toLex ("", 0))

/-- The row sort key used by `df.sort_values(by=["algo", "env_name"])`:
the pair of the two named cells' keys, compared lexicographically. -/
def rowKey (r : Row) : Lex ((Lex (Nat × Lex (String × ℚ))) × (Lex (Nat × Lex (String × ℚ)))) :=
  toLex (optCellKey (r.lookup "algo"), optCellKey (r.lookup "env_name"))

/-- Ascending order on rows by `(algo, env_name)`. -/
def rowLe (a b : Row) : Prop := rowKey a ≤ rowKey b

instance : DecidableRel rowLe := fun a b =>
  inferInstanceAs (Decidable (rowKey a ≤ rowKey b))

instance : IsTotal Row rowLe := ⟨fun a b => le_total (rowKey a) (rowKey b)⟩

instance : IsTrans Row rowLe := ⟨fun _ _ _ h1 h2 => le_trans h1 h2⟩

/-- The table-construction core of `analyze_imitation`: select the column
subset for the requested verbosity, gather and filter the records, build
one row per record, and sort a non-empty row sequence by
`(algo, env_name)` ascending (`df.sort_values` on the two columns; an empty
frame skips the sort). -/
def analyze_imitation (table_verbosity : ℤ) (dirs : List LoadResult)
    (run_name env_name : Option String) (skip_failed_runs : Bool) :
    Except String (List Row) :=
  match _get_table_entry_fns_subset table_verbosity with
  | Except.error e => Except.error e
  | Except.ok fns =>
    let sds := (_gather_sacred_dicts dirs run_name env_name skip_failed_runs).1
    match buildRows fns sds with
    | Except.error e => Except.error e
    | Except.ok rows =>
      Except.ok (if rows.isEmpty then rows else List.insertionSort rowLe rows)

/-! ### Concrete fixtures -/

/-- The stats sub-document of claim C1: mean 5.123456, std 0.987654,
count 10. -/
def statsC1 : JVal := JVal.obj
  [("return_mean", JVal.num (5123456 / 1000000)),
   ("return_std", JVal.num (987654 / 1000000)),
   ("n_traj", JVal.num 10)]

/-- A record whose run document has no `status` field (nor any other). -/
def sdNoStatus : SacredDicts := ⟨"ns", [], []⟩

/-- A record whose run document has no `command` field. -/
def sdNoCmd : SacredDicts := ⟨"nc", [], []⟩

/-- Expert stats for the claim-C3 record: mean 10. -/
def expertStatsC3 : JVal := JVal.obj
  [("return_mean", JVal.num 10), ("return_std", JVal.num (3 / 2)),
   ("n_traj", JVal.num 5)]

/-- Imitation stats for the claim-C3 record: monitor mean 7. -/
def imitStatsC3 : JVal := JVal.obj
  [("monitor_return_mean", JVal.num 7), ("monitor_return_std", JVal.num (3 / 2)),
   ("n_traj", JVal.num 5)]

/-- A record with both stats sub-documents present: expert mean 10 and
imitation mean 7. -/
def sdC3 : SacredDicts :=
  ⟨"d3",
   [("result", JVal.obj
      [("expert_stats", expertStatsC3), ("imit_stats", imitStatsC3)])],
   []⟩

/-- The summaries `_return_summaries` computes for `sdC3`. -/
def rC3 : Summaries :=
  ⟨some expertStatsC3, some imitStatsC3,
   some " 10 ± 1.5 (n=5)", some "  7 ± 1.5 (n=5)", some (7 / 10)⟩

/-- A record with both stats sub-documents absent. -/
def sdC3none : SacredDicts := ⟨"d3n", [], []⟩

/-- The summaries `_return_summaries` computes for `sdC3none`. -/
def rC3none : Summaries := ⟨none, none, none, none, none⟩

/-- Claim-C4 fixture: command `train_bc`, with an `algorithm` config field
present to show it is ignored. -/
def sdC4bc : SacredDicts :=
  ⟨"c4a", [("command", JVal.str "train_bc")], [("algorithm", JVal.str "gail")]⟩

/-- Claim-C4 fixture: command `train_dagger`. -/
def sdC4dagger : SacredDicts :=
  ⟨"c4b", [("command", JVal.str "train_dagger")], [("algorithm", JVal.str "gail")]⟩

/-- Claim-C4 fixture: command `train_adversarial`, no `algorithm` field. -/
def sdC4advNone : SacredDicts :=
  ⟨"c4c", [("command", JVal.str "train_adversarial")], []⟩

/-- Claim-C4 fixture: command `train_adversarial`, algorithm `gail`. -/
def sdC4advGail : SacredDicts :=
  ⟨"c4d", [("command", JVal.str "train_adversarial")],
   [("algorithm", JVal.str "gail")]⟩

/-- Claim-C4 fixture: unrecognized command `foo`. -/
def sdC4foo : SacredDicts := ⟨"c4e", [("command", JVal.str "foo")], []⟩

/-- Claim-C9 fixture: a DAgger run on environment `B`. -/
def sdC9a : SacredDicts :=
  ⟨"c9a", [("command", JVal.str "train_dagger")], [("env_name", JVal.str "B")]⟩

/-- Claim-C9 fixture: a BC run on environment `A`. -/
def sdC9b : SacredDicts :=
  ⟨"c9b", [("command", JVal.str "train_bc")], [("env_name", JVal.str "A")]⟩

/-- The verbosity-0 row of `sdC9b`. -/
def rowC9BC : Row :=
  [("algo", Cell.pystr "BC"), ("env_name", Cell.pystr "A"),
   ("expert_return_summary", Cell.pynone), ("imit_return_summary", Cell.pynone)]

/-- The verbosity-0 row of `sdC9a`. -/
def rowC9DAgger : Row :=
  [("algo", Cell.pystr "DAgger"), ("env_name", Cell.pystr "B"),
   ("expert_return_summary", Cell.pynone), ("imit_return_summary", Cell.pynone)]

/-- The sorted table built from `[sdC9a, sdC9b]` at verbosity 0. -/
def rowsC9 : List Row := [rowC9BC, rowC9DAgger]

/-! ### Claims -/

/-- C1: the claim says `_make_return_summary` renders mean 5.123456,
std 0.987654, count 10 as `"5.12 ± 0.988 (n=10)"` (three significant
digits, format spec `.3g`).  The source's format spec is `3g` — minimum
width 3 with the default precision of 6 significant digits — so the code
actually produces `"5.12346 ± 0.987654 (n=10)"`.  The spec's repeated
three-significant-digit reading is the evident intent of a compact
`mean ± std` summary; the missing dot in the format spec is a slip in the
code. -/
theorem C1_format_divergence :
    _make_return_summary statsC1 "" = Except.ok "5.12346 ± 0.987654 (n=10)" ∧
    "5.12346 ± 0.987654 (n=10)" ≠ "5.12 ± 0.988 (n=10)" :=
  ⟨by with_unfolding_all rfl, by decide⟩

/-- C2 counterexample: the claim says every enabled predicate excludes a
record whose inspected field is missing, "in particular" a record whose run
document has no `status` field is excluded when the failure-status filter
is enabled.  In the source that filter keeps `sd` iff
`get(sd.run, "status") != "FAILED"`, and a missing status is `None`, which
is not `"FAILED"` — so the record is kept, not excluded. -/
theorem C2_counterexample :
    filterSacredDicts none none true [sdNoStatus] = [sdNoStatus] := rfl

/-- C2 (amended): the run-name and environment-name predicates exclude a
record whose inspected field is missing (a missing field never equals the
requested string) and never raise; the failure-status predicate never
raises but keeps a record whose run document has no status field, since it
drops only records whose status equals "FAILED". -/
theorem C2_missing_fields (sd : SacredDicts) (n m : String) :
    (dict_get_nested sd.run "experiment.name" = none →
      filterSacredDicts (some n) none false [sd] = [])
    ∧ (dict_get_nested sd.config "env_name" = none →
      filterSacredDicts none (some m) false [sd] = [])
    ∧ (dict_get_nested sd.run "status" = none →
      filterSacredDicts none none true [sd] = [sd]) := by
  refine ⟨fun h => ?_, fun h => ?_, fun h => ?_⟩ <;>
    simp [filterSacredDicts, eqToStr, h]

/-- C2 witness: all three parts of the amended claim evaluated on the
record with empty documents. -/
theorem C2_witness :
    filterSacredDicts (some "r") none false [sdNoStatus] = [] ∧
    filterSacredDicts none (some "e") false [sdNoStatus] = [] ∧
    filterSacredDicts none none true [sdNoStatus] = [sdNoStatus] :=
  ⟨(C2_missing_fields sdNoStatus "r" "e").1 rfl,
   (C2_missing_fields sdNoStatus "r" "e").2.1 rfl,
   (C2_missing_fields sdNoStatus "r" "e").2.2 rfl⟩

/-- C5: a directory whose documents fail to parse produces exactly one
diagnostic naming it, is excluded from the record list, and the directories
before and after it are processed exactly as they would be on their own —
one malformed directory never aborts the scan. -/
theorem C5_loader_skips_malformed (pre post : List LoadResult) (dir : String) :
    loadSacredDirs (pre ++ LoadResult.jsonDecodeError dir :: post) =
      ((loadSacredDirs pre).1 ++ (loadSacredDirs post).1,
       (loadSacredDirs pre).2 ++ ("Invalid JSON file in " ++ dir) :: (loadSacredDirs post).2) := by
  induction pre with
  | nil => simp [loadSacredDirs]
  | cons hd tl ih => cases hd <;> simp [loadSacredDirs, ih]

/-- C6: for tiers `k1 < k2` within the tier table, every column name
selected at tier `k1` is also selected at tier `k2`. -/
theorem C6_tier_monotone :
    ∀ k2, k2 < table_verbosity_mapping.length → ∀ k1, k1 < k2 →
      ∀ a, a ∈ table_verbosity_mapping.getD k1 [] →
        a ∈ table_verbosity_mapping.getD k2 [] := by decide

/-- C6 witness: tier 0 is below tier 2, and the column `algo` of tier 0 is
selected at tier 2. -/
theorem C6_witness :
    2 < table_verbosity_mapping.length ∧ 0 < 2 ∧
    "algo" ∈ table_verbosity_mapping.getD 2 [] :=
  ⟨by decide, by decide,
   C6_tier_monotone 2 (by decide) 0 (by decide) "algo" (by decide)⟩

/-- C7: any verbosity at or beyond the number of defined tiers selects the
entire registry, however large; in particular the selections at 5 and at
1000 are both the full `table_entry_fns`. -/
theorem C7_tier_saturation (t : ℤ)
    (h : (table_verbosity_mapping.length : ℤ) ≤ t) :
    _get_table_entry_fns_subset t = Except.ok table_entry_fns := by
  have h3 : (table_verbosity_mapping.length : ℤ) = 3 := rfl
  rw [h3] at h
  unfold _get_table_entry_fns_subset
  rw [if_neg (by omega), if_pos (by rw [h3]; omega)]

/-- C7 witness: the selection at verbosity 5 is the full registry. -/
theorem C7_witness :
    (table_verbosity_mapping.length : ℤ) ≤ 5 ∧
    _get_table_entry_fns_subset 5 = Except.ok table_entry_fns :=
  ⟨by decide, C7_tier_saturation 5 (by decide)⟩

/-- C8: for every input record sequence and every combination of enabled
predicates, the filter output is a sublist of its input — every output
record is an input record, relative order is preserved, and nothing is
duplicated. -/
theorem C8_filter_sublist (run_name env_name : Option String)
    (skip_failed_runs : Bool) (sds : List SacredDicts) :
    (filterSacredDicts run_name env_name skip_failed_runs sds).Sublist sds := by
  rcases run_name with _ | n <;> rcases env_name with _ | m <;>
    rcases skip_failed_runs <;> simp only [filterSacredDicts] <;>
    first
    | exact List.Sublist.refl _
    | exact List.filter_sublist _
    | exact (List.filter_sublist _).trans (List.filter_sublist _)
    | exact (List.filter_sublist _).trans
        ((List.filter_sublist _).trans (List.filter_sublist _))

/-- The ratio computation is `None` when the expert sub-document is
absent. -/
theorem ratioPart_none_right (i : Option JVal) :
    ratioPart i none = Except.ok none := by
  cases i <;> rfl

/-- The ratio computation is `None` when the imitation sub-document is
absent. -/
theorem ratioPart_none_left (e : Option JVal) :
    ratioPart none e = Except.ok none := by
  cases e <;> rfl

/-- When `_return_summaries` succeeds, its `imit_expert_ratio` field is the
value of the ratio computation on the two stats sub-documents. -/
theorem return_summaries_ratio (sd : SacredDicts) (r : Summaries)
    (h : _return_summaries sd = Except.ok r) :
    ratioPart (dict_get_nested sd.run "result.imit_stats")
      (dict_get_nested sd.run "result.expert_stats") =
      Except.ok r.imit_expert_ratio := by
  simp only [_return_summaries] at h
  cases hE : optSummary (dict_get_nested sd.run "result.expert_stats") "" <;>
    rw [hE] at h <;>
  cases hI : optSummary (dict_get_nested sd.run "result.imit_stats") "monitor_" <;>
    rw [hI] at h <;>
  cases hR : ratioPart (dict_get_nested sd.run "result.imit_stats")
      (dict_get_nested sd.run "result.expert_stats") <;>
    rw [hR] at h <;>
  simp_all
  rw [← h]

/-- C3: whenever `_return_summaries` returns a result, its
`imit_expert_ratio` is `None` as soon as either stats sub-document is
absent, and is the quotient of the imitation mean by the expert mean when
both are present. -/
theorem C3_imit_expert_ratio (sd : SacredDicts) (r : Summaries)
    (h : _return_summaries sd = Except.ok r) :
    ((dict_get_nested sd.run "result.expert_stats" = none ∨
      dict_get_nested sd.run "result.imit_stats" = none) →
      r.imit_expert_ratio = none)
    ∧ (∀ i e qm qe,
      dict_get_nested sd.run "result.imit_stats" = some i →
      dict_get_nested sd.run "result.expert_stats" = some e →
      jIndex i "monitor_return_mean" = Except.ok (JVal.num qm) →
      jIndex e "return_mean" = Except.ok (JVal.num qe) →
      r.imit_expert_ratio = some (qm / qe)) := by
  have hr := return_summaries_ratio sd r h
  constructor
  · rintro (he | hi)
    · rw [he, ratioPart_none_right] at hr
      exact (Except.ok.inj hr).symm
    · rw [hi, ratioPart_none_left] at hr
      exact (Except.ok.inj hr).symm
  · intro i e qm qe hi he hqm hqe
    rw [hi, he] at hr
    simp only [ratioPart, hqm, hqe, asNum] at hr
    by_cases h0 : qe = 0
    · rw [if_pos h0] at hr; cases hr
    · rw [if_neg h0] at hr
      exact (Except.ok.inj hr).symm

/-- C3 witness: on the record with expert mean 10 and imitation mean 7 the
ratio is 7/10; on the record with both sub-documents absent it is `None`. -/
theorem C3_witness :
    rC3.imit_expert_ratio = some ((7 : ℚ) / 10) ∧
    rC3none.imit_expert_ratio = none :=
  ⟨(C3_imit_expert_ratio sdC3 rC3 (by with_unfolding_all rfl)).2
      imitStatsC3 expertStatsC3 7 10 rfl rfl rfl rfl,
   (C3_imit_expert_ratio sdC3none rC3none rfl).1 (Or.inl rfl)⟩

/-- C4: `_get_algo_name` dispatches on the stringified command field:
`train_bc` gives `BC` and `train_dagger` gives `DAgger` whatever the config
holds; `train_adversarial` returns the upper-cased `algorithm` config field
with an absent field staying `None`; any other command string `k` yields
the diagnostic `"??exp_command=" ++ k` and never an error. -/
theorem C4_algo_name_dispatch (sd : SacredDicts) :
    (pyDictGet sd.run "command" = some (JVal.str "train_bc") →
      _get_algo_name sd = Except.ok (some "BC"))
    ∧ (pyDictGet sd.run "command" = some (JVal.str "train_dagger") →
      _get_algo_name sd = Except.ok (some "DAgger"))
    ∧ (pyDictGet sd.run "command" = some (JVal.str "train_adversarial") →
      (dict_get_nested sd.config "algorithm" = none →
        _get_algo_name sd = Except.ok none)
      ∧ ∀ s, dict_get_nested sd.config "algorithm" = some (JVal.str s) →
        _get_algo_name sd = Except.ok (some s.toUpper))
    ∧ (∀ k, pyDictGet sd.run "command" = some (JVal.str k) →
      k ≠ "train_adversarial" → k ≠ "train_bc" → k ≠ "train_dagger" →
      _get_algo_name sd = Except.ok (some ("??exp_command=" ++ k))) := by
  refine ⟨fun h => ?_, fun h => ?_,
    fun h => ⟨fun ha => ?_, fun s hs => ?_⟩, fun k h h1 h2 h3 => ?_⟩ <;>
    simp [_get_algo_name, _get_exp_command, h, pyStrOpt, pyStrV]
  · simp [ha]
  · simp [hs]
  · simp [h1, h2, h3]

/-- C4 witness: the five dispatch branches evaluated on concrete records. -/
theorem C4_witness :
    _get_algo_name sdC4bc = Except.ok (some "BC") ∧
    _get_algo_name sdC4dagger = Except.ok (some "DAgger") ∧
    _get_algo_name sdC4advNone = Except.ok none ∧
    _get_algo_name sdC4advGail = Except.ok (some ("gail".toUpper)) ∧
    _get_algo_name sdC4foo = Except.ok (some ("??exp_command=" ++ "foo")) :=
  ⟨(C4_algo_name_dispatch sdC4bc).1 rfl,
   (C4_algo_name_dispatch sdC4dagger).2.1 rfl,
   ((C4_algo_name_dispatch sdC4advNone).2.2.1 rfl).1 rfl,
   ((C4_algo_name_dispatch sdC4advGail).2.2.1 rfl).2 "gail" rfl,
   (C4_algo_name_dispatch sdC4foo).2.2.2 "foo" rfl
     (by decide) (by decide) (by decide)⟩

/-- C10: a record whose run document has no `command` field at all gets
`str(None) = "None"` as its command, which falls through to the
unknown-kind branch: `_get_algo_name` returns the literal
`"??exp_command=None"`, neither `None` nor an error. -/
theorem C10_missing_command (sd : SacredDicts)
    (h : lookupField sd.run "command" = none) :
    _get_algo_name sd = Except.ok (some "??exp_command=None") := by
  have hc : _get_exp_command sd = "None" := by
    simp [_get_exp_command, pyDictGet, h, pyStrOpt]
  simp [_get_algo_name, hc]

/-- C10 witness: the record with an empty run document. -/
theorem C10_witness :
    lookupField sdNoCmd.run "command" = none ∧
    _get_algo_name sdNoCmd = Except.ok (some "??exp_command=None") :=
  ⟨rfl, C10_missing_command sdNoCmd rfl⟩

/-- C9: whenever the table build succeeds, the returned row sequence is
sorted ascending by the pair of the `algo` and `env_name` column values. -/
theorem C9_rows_sorted (table_verbosity : ℤ) (dirs : List LoadResult)
    (run_name env_name : Option String) (skip_failed_runs : Bool)
    (rows : List Row)
    (h : analyze_imitation table_verbosity dirs run_name env_name skip_failed_runs
      = Except.ok rows) :
    rows.Sorted rowLe := by
  cases hs : _get_table_entry_fns_subset table_verbosity with
  | error e => simp [analyze_imitation, hs] at h
  | ok fns =>
    simp only [analyze_imitation, hs] at h
    cases hb : buildRows fns
        (_gather_sacred_dicts dirs run_name env_name skip_failed_runs).1 with
    | error e => simp [hb] at h
    | ok rs =>
      simp only [hb, Except.ok.injEq] at h
      by_cases he : rs.isEmpty
      · rw [if_pos he] at h
        subst h
        have : rs = [] := by simpa using he
        simp [this]
      · rw [if_neg he] at h
        subst h
        exact List.sorted_insertionSort rowLe rs

/-- C9 witness: two runs given in reverse order come back sorted by
`(algo, env_name)`. -/
theorem C9_witness :
    analyze_imitation 0 [LoadResult.parsed sdC9a, LoadResult.parsed sdC9b]
      none none false = Except.ok rowsC9 ∧
    rowsC9.Sorted rowLe :=
  ⟨by with_unfolding_all rfl,
   C9_rows_sorted 0 [LoadResult.parsed sdC9a, LoadResult.parsed sdC9b]
     none none false rowsC9 (by with_unfolding_all rfl)⟩

end Imitation
